import Mathlib

/-!
Shallow embedding of `src/main.rs` of the button-board firmware.

The program is an interrupt-driven controller: eight push-buttons and an
RTC alarm-pulse line each set a static boolean "notice" flag from interrupt
context and signal one shared notification; the control loop re-arms all
interrupts, redraws the display for the current mode, waits on the
notification, re-arms the RTC alarm when its match flag is set, and then
dispatches each pending button flag guarded by the line reading low.
A background MQTT task decodes JSON payloads and stores sensor values into
four atomic cells (TEMP, HUMID, PM2_5, PM10).

Pure functions of the source become Lean functions; the statics become an
explicit `SysState` record; the externally visible side effects (LCD
writes, RTC register writes, command sends, delays) become an `Event`
trace emitted by each loop iteration.
-/

namespace ButtonBoard

/-- The eight push-buttons (statics `BUTTON_A_NOTICE` .. `BUTTON_H_NOTICE`,
pins gpio18,19,20,21,22,23,2,3 in `main`). -/
inductive Button
  | a | b | c | d | e | f | g | h
deriving DecidableEq, Repr

/-- The edge-interrupt sources armed each loop iteration: the DS3231 `sqw`
alarm-pulse line plus the eight buttons (`main`, loop head). -/
inductive Source
  | sqw
  | btn (b : Button)
deriving DecidableEq, Repr

/-- One boolean flag per button: the statics
`BUTTON_A_NOTICE .. BUTTON_H_NOTICE` (all initialised `false`). -/
structure Flags where
  a : Bool
  b : Bool
  c : Bool
  d : Bool
  e : Bool
  f : Bool
  g : Bool
  h : Bool
deriving DecidableEq, Repr

/-- Read the flag of one button. -/
def Flags.get (fl : Flags) (btn : Button) : Bool :=
  match btn with
  | .a => fl.a
  | .b => fl.b
  | .c => fl.c
  | .d => fl.d
  | .e => fl.e
  | .f => fl.f
  | .g => fl.g
  | .h => fl.h

/-- Write the flag of one button. -/
def Flags.set (fl : Flags) (btn : Button) (v : Bool) : Flags :=
  match btn with
  | .a => { fl with a := v }
  | .b => { fl with b := v }
  | .c => { fl with c := v }
  | .d => { fl with d := v }
  | .e => { fl with e := v }
  | .f => { fl with f := v }
  | .g => { fl with g := v }
  | .h => { fl with h := v }

/-- The four exchange cells: statics `TEMP`, `HUMID`, `PM2_5`, `PM10`
(`AtomicU32`, initialised 0). -/
structure Cells where
  temp : Nat
  humid : Nat
  pm2_5 : Nat
  pm10 : Nat
deriving DecidableEq, Repr

/-- Value of `rtc.datetime()` (a chrono `NaiveDateTime`): the fields the
display code reads. -/
structure DateTimeV where
  year : Int
  month : Nat
  day : Nat
  hour : Nat
  minute : Nat
  second : Nat
deriving DecidableEq, Repr

/-- The mutable state of the program that the claims are about: the button
flag table, `CURRENT_DISPLAY_STATE` (an `AtomicU8`; the code only ever
stores 0 or 1), the four exchange cells, the DS3231 alarm-2 match flag,
and the pending bit of the shared `Notification`. -/
structure SysState where
  flags : Flags
  mode : Nat
  cells : Cells
  alarmMatched : Bool
  pending : Bool
deriving DecidableEq, Repr

/-- The decoded MQTT payload struct `EnvironmentalInfo` (`f32` fields in
the source, modelled as rationals). -/
structure EnvironmentalInfo where
  temp : ℚ
  humid : ℚ
  pm2_5 : ℚ
  pm10 : ℚ
deriving DecidableEq, Repr

/-- Outcome of the two fallible decode stages in `convert_event_data`:
`String::from_utf8` and `serde_json::from_str`. The decoders themselves
are external library code; only their success/failure shape matters. -/
inductive DecodeOutcome
  | utf8Error
  | jsonError
  | ok (info : EnvironmentalInfo)
deriving DecidableEq, Repr

/-- The alarm recurrence the code programs: `Alarm2Matching::OncePerMinute`. -/
inductive AlarmMatching
  | oncePerMinute
deriving DecidableEq, Repr

/-- Externally visible side effects of one control-loop iteration, in
program order. -/
inductive Event
  | enableInterrupt (s : Source)
  | displayClockDraw (line1 line2 : String)
  | displayAqiDraw (line1 line2 : String)
  | waitNotification
  | delayMs (n : Nat)
  | rtcClearAlarm2MatchedFlag
  | rtcSetAlarm2Day (day hour minute : Nat) (m : AlarmMatching)
  | lcdClear
  | storeMode (v : Nat)
  | displayMessage (line1 line2 : String)
  | sendCommand (code : String)
  | clearFlag (b : Button)
  | wifiReconnect
deriving DecidableEq, Repr

/-- Environment of one loop iteration: how many hardware edges fired on
each button while the loop was waiting, the `is_low()` reading of each
button pin at dispatch time, whether the RTC alarm fired (sqw pulse plus
match flag), the wifi link state, and the value `rtc.datetime()` returns
at the redraw. -/
structure Inputs where
  aFired : Nat
  bFired : Nat
  cFired : Nat
  dFired : Nat
  eFired : Nat
  fFired : Nat
  gFired : Nat
  hFired : Nat
  aLow : Bool
  bLow : Bool
  cLow : Bool
  dLow : Bool
  eLow : Bool
  fLow : Bool
  gLow : Bool
  hLow : Bool
  alarmFires : Bool
  wifiConnected : Bool
  dateTime : DateTimeV
deriving DecidableEq, Repr

/-- Number of edges fired on a given button in this iteration. -/
def Inputs.fired (inp : Inputs) (btn : Button) : Nat :=
  match btn with
  | .a => inp.aFired
  | .b => inp.bFired
  | .c => inp.cFired
  | .d => inp.dFired
  | .e => inp.eFired
  | .f => inp.fFired
  | .g => inp.gFired
  | .h => inp.hFired

/-- The `is_low()` reading of a button pin at dispatch time. -/
def Inputs.low (inp : Inputs) (btn : Button) : Bool :=
  match btn with
  | .a => inp.aLow
  | .b => inp.bLow
  | .c => inp.cLow
  | .d => inp.dLow
  | .e => inp.eLow
  | .f => inp.fLow
  | .g => inp.gLow
  | .h => inp.hLow

/-- The string the interrupt-registration closure of each button passes to
`handle_button_default`. -/
def buttonName (btn : Button) : String :=
  match btn with
  | .a => "a"
  | .b => "b"
  | .c => "c"
  | .d => "d"
  | .e => "e"
  | .f => "f"
  | .g => "g"
  | .h => "h"

/-- `pad_single_digit` (src/main.rs:445): `format!("0{}", num)` below 10,
plain decimal otherwise. -/
def pad_single_digit (num : Nat) : String :=
  if num < 10 then "0" ++ toString num else toString num

/-- `month_to_abbreviation` (src/main.rs:453). -/
def month_to_abbreviation (month : Nat) : String :=
  match month with
  | 1 => "JAN"
  | 2 => "FEB"
  | 3 => "MAR"
  | 4 => "APR"
  | 5 => "MAY"
  | 6 => "JUN"
  | 7 => "JUL"
  | 8 => "AUG"
  | 9 => "SEP"
  | 10 => "OCT"
  | 11 => "NOV"
  | 12 => "DEC"
  | _ => "Invalid"

/-- The two lines `display_clock` (src/main.rs:471) writes to the LCD.
`year` is chrono's i32 year; Rust integer `%` truncates toward zero,
which is `Int.tmod`. -/
def display_clock_lines (dt : DateTimeV) (temp humid : Nat) : String × String :=
  let hour := pad_single_digit dt.hour
  let minute := pad_single_digit dt.minute
  let day := pad_single_digit dt.day
  let month := month_to_abbreviation dt.month
  let year := toString (Int.tmod dt.year 100)
  (hour ++ ":" ++ minute ++ "  " ++ day ++ " " ++ month ++ " " ++ year,
   "  T " ++ pad_single_digit temp ++ "C  H " ++ pad_single_digit humid ++ "%")

/-- The two lines `display_aqi` (src/main.rs:496) writes to the LCD. -/
def display_aqi_lines (pm2_5 pm10 : Nat) : String × String :=
  ("PM2.5: " ++ toString pm2_5, "PM10: " ++ toString pm10)

/-- Rust `f32 as u32` cast on a rational value: truncation toward zero,
saturating at the `u32` bounds (negative values and NaN go to 0). -/
def ratToU32 (q : ℚ) : Nat :=
  if q < 0 then 0 else min (Int.toNat ⌊q⌋) (2 ^ 32 - 1)

/-- `convert_event_data` (src/main.rs:543): a UTF-8 failure or a JSON
failure both yield the all-zero `EnvironmentalInfo`. -/
def convert_event_data (raw : DecodeOutcome) : EnvironmentalInfo :=
  match raw with
  | .ok info => info
  | .jsonError => ⟨0, 0, 0, 0⟩
  | .utf8Error => ⟨0, 0, 0, 0⟩

/-- The body of the MQTT listener thread for one `Received` event
(src/main.rs:231): skip the TEMP store when `info.temp == 0.0`, skip the
HUMID store when `info.humid == 0.0`, and store PM2_5 and PM10
unconditionally. -/
def mqttReceivedStep (cells : Cells) (raw : DecodeOutcome) : Cells :=
  let info := convert_event_data raw
  let cells := if info.temp = 0 then cells else { cells with temp := ratToU32 info.temp }
  let cells := if info.humid = 0 then cells else { cells with humid := ratToU32 info.humid }
  { cells with pm2_5 := ratToU32 info.pm2_5, pm10 := ratToU32 info.pm10 }

/-- The MQTT listener step lifted to the whole program state: it only
touches the exchange cells. -/
def mqttStoreStep (st : SysState) (raw : DecodeOutcome) : SysState :=
  { st with cells := mqttReceivedStep st.cells raw }

/-- The mode update of the button-A block (src/main.rs:299): store 1 when
the current value is 0, store 0 otherwise. -/
def toggleMode (m : Nat) : Nat :=
  if m = 0 then 1 else 0

/-- `handle_button_default` (src/main.rs:411): runs in interrupt context;
sets the flag selected by the button string, then notifies the shared
notification (multiple notifications collapse into one pending wake). -/
def handle_button_default (st : SysState) (button : String) : SysState :=
  let fl := st.flags
  let fl :=
    if button = "a" then { fl with a := true }
    else if button = "b" then { fl with b := true }
    else if button = "c" then { fl with c := true }
    else if button = "d" then { fl with d := true }
    else if button = "e" then { fl with e := true }
    else if button = "f" then { fl with f := true }
    else if button = "g" then { fl with g := true }
    else if button = "h" then { fl with h := true }
    else fl
  { st with flags := fl, pending := true }

/-- `handle_sqw_notice` (src/main.rs:433): only notifies. -/
def handle_sqw_notice (st : SysState) : SysState :=
  { st with pending := true }

/-- `handle_alarm_every_minute` (src/main.rs:526): clear the alarm-2
matched flag, then program alarm 2 for `OncePerMinute`. -/
def handle_alarm_every_minute (st : SysState) : SysState × List Event :=
  ({ st with alarmMatched := false },
   [Event.rtcClearAlarm2MatchedFlag, Event.rtcSetAlarm2Day 1 0 0 AlarmMatching.oncePerMinute])

/-- `n` hardware edges on one button: `n` interrupt-context executions of
`handle_button_default` for that button's string. -/
def fireN (button : String) : Nat → SysState → SysState
  | 0, st => st
  | n + 1, st => handle_button_default (fireN button n st) button

/-- The fixed order in which the loop tests the button blocks
(src/main.rs:296-390). -/
def buttonOrder : List Button :=
  [.a, .b, .c, .d, .e, .f, .g, .h]

/-- All button edges that fire while the loop is waiting, applied
button by button (the order is immaterial: each handler only sets its own
flag and the shared pending bit). -/
def applyFired (st : SysState) (inp : Inputs) : SysState :=
  buttonOrder.foldl (fun s c => fireN (buttonName c) (inp.fired c) s) st

/-- State after `notification.wait(delay::BLOCK)` returns: the edges that
fired during the wait have run their handlers, an alarm pulse has run
`handle_sqw_notice` and raised the DS3231 match flag, and the wait has
consumed the pending notification. -/
def waitPhase (st : SysState) (inp : Inputs) : SysState :=
  let st := applyFired st inp
  let st := if inp.alarmFires then { handle_sqw_notice st with alarmMatched := true } else st
  { st with pending := false }

/-- The alarm check of the loop (src/main.rs:293): re-arm exactly when the
match flag is observed set. -/
def alarmPhase (st : SysState) : SysState × List Event :=
  if st.alarmMatched then handle_alarm_every_minute st else (st, [])

/-- The body of one button's accepted dispatch block (src/main.rs:296-390):
the state change and the events emitted before the flag clear. Button A
clears the LCD and toggles `CURRENT_DISPLAY_STATE`; every other button
shows its transient two-line message, sends its one-letter command, and
delays 1000 ms. -/
def buttonAction (st : SysState) (btn : Button) : SysState × List Event :=
  match btn with
  | .a => ({ st with mode := toggleMode st.mode },
           [Event.lcdClear, Event.storeMode (toggleMode st.mode)])
  | .b => (st, [Event.displayMessage "TURN ON/OFF AC" "", Event.sendCommand "b", Event.delayMs 1000])
  | .c => (st, [Event.displayMessage "TURN ON/OFF" "   AIR FILTER", Event.sendCommand "c", Event.delayMs 1000])
  | .d => (st, [Event.displayMessage "LIGHT MODE" "   DAY", Event.sendCommand "d", Event.delayMs 1000])
  | .e => (st, [Event.displayMessage "LIGHT MODE" "  NIGHT", Event.sendCommand "e", Event.delayMs 1000])
  | .f => (st, [Event.displayMessage "TURN ON/OFF LIGHT" "", Event.sendCommand "f", Event.delayMs 1000])
  | .g => (st, [Event.displayMessage "EMPTY FUNCTION" "", Event.sendCommand "g", Event.delayMs 1000])
  | .h => (st, [Event.displayMessage "EMPTY FUNCTION" "", Event.sendCommand "h", Event.delayMs 1000])

/-- One button's dispatch block: guarded by `flag && is_low()`; on
acceptance the action runs first and the flag is stored `false` last. -/
def buttonBlock (inp : Inputs) (st : SysState) (btn : Button) : SysState × List Event :=
  if st.flags.get btn && inp.low btn then
    ({ (buttonAction st btn).1 with flags := (buttonAction st btn).1.flags.set btn false },
     (buttonAction st btn).2 ++ [Event.clearFlag btn])
  else (st, [])

/-- Sequential dispatch of a list of buttons, threading the state. -/
def dispatchList (inp : Inputs) : List Button → SysState → SysState × List Event
  | [], st => (st, [])
  | btn :: rest, st =>
    ((dispatchList inp rest (buttonBlock inp st btn).1).1,
     (buttonBlock inp st btn).2 ++ (dispatchList inp rest (buttonBlock inp st btn).1).2)

/-- The whole button-dispatch section of the loop body. -/
def dispatchButtons (st : SysState) (inp : Inputs) : SysState × List Event :=
  dispatchList inp buttonOrder st

/-- The events one button contributes to the dispatch trace, as a function
of the state at the head of the dispatch section. -/
def dispatchSeg (st : SysState) (inp : Inputs) (btn : Button) : List Event :=
  if st.flags.get btn && inp.low btn then (buttonAction st btn).2 ++ [Event.clearFlag btn] else []

/-- The order in which the loop head re-arms the interrupt sources
(src/main.rs:263-271): the sqw line first, then buttons a through h. -/
def armOrder : List Source :=
  [.sqw, .btn .a, .btn .b, .btn .c, .btn .d, .btn .e, .btn .f, .btn .g, .btn .h]

/-- The redraw at the top of the loop (src/main.rs:274-287): clock view in
mode 0, air-quality view in mode 1, nothing otherwise. It reads the
state and emits a draw event; it writes no program state. -/
def redrawStep (st : SysState) (dt : DateTimeV) : SysState × List Event :=
  if st.mode = 0 then
    (st, [Event.displayClockDraw (display_clock_lines dt st.cells.temp st.cells.humid).1
            (display_clock_lines dt st.cells.temp st.cells.humid).2])
  else if st.mode = 1 then
    (st, [Event.displayAqiDraw (display_aqi_lines st.cells.pm2_5 st.cells.pm10).1
            (display_aqi_lines st.cells.pm2_5 st.cells.pm10).2])
  else (st, [])

/-- One full iteration of the control loop (src/main.rs:261-397):
re-arm all nine interrupts, redraw for the current mode, block on the
notification (during which edges fire), delay 100 ms, re-arm the alarm if
its match flag is observed set, dispatch the button flags in order, and
reconnect wifi if it is down. Returns the new state and the event trace
of the iteration. -/
def loopIteration (st : SysState) (inp : Inputs) : SysState × List Event :=
  let stW := waitPhase st inp
  let stA := (alarmPhase stW).1
  let stD := (dispatchButtons stA inp).1
  (stD,
   armOrder.map Event.enableInterrupt
     ++ (redrawStep st inp.dateTime).2
     ++ [Event.waitNotification, Event.delayMs 100]
     ++ (alarmPhase stW).2
     ++ (dispatchButtons stA inp).2
     ++ (if inp.wifiConnected then [] else [Event.wifiReconnect, Event.delayMs 5000]))

/-- The flag observed by a button's dispatch block this iteration,
conjoined with its line reading low: the acceptance test of the block. -/
def acceptedAt (st : SysState) (inp : Inputs) (btn : Button) : Bool :=
  ((alarmPhase (waitPhase st inp)).1).flags.get btn && inp.low btn

/-- The initial values of the statics: all flags false,
`CURRENT_DISPLAY_STATE = 0`, all exchange cells 0, alarm flag clear,
no pending notification. -/
def initialState : SysState :=
  { flags := ⟨false, false, false, false, false, false, false, false⟩
    mode := 0
    cells := ⟨0, 0, 0, 0⟩
    alarmMatched := false
    pending := false }

/-- State when `main` enters the loop: `handle_alarm_every_minute` has run
exactly once at startup (src/main.rs:253). -/
def stateAtLoopEntry : SysState :=
  (handle_alarm_every_minute initialState).1

/-- The RTC events emitted by the single startup call of
`handle_alarm_every_minute` (src/main.rs:253). -/
def startupTrace : List Event :=
  (handle_alarm_every_minute initialState).2

/-- States reachable by the program: the initial static values, any number
of control-loop iterations under arbitrary environments, and any number of
MQTT-listener stores. -/
inductive Reachable : SysState → Prop
  | init : Reachable initialState
  | loopStep (st : SysState) (inp : Inputs) :
      Reachable st → Reachable (loopIteration st inp).1
  | mqttStep (st : SysState) (raw : DecodeOutcome) :
      Reachable st → Reachable (mqttStoreStep st raw)

/-- The iteration environment of the mode-cycling scenario: exactly one
edge on button A during the wait, line A settled low, no alarm, wifi up. -/
def toggleInput (dt : DateTimeV) : Inputs :=
  { aFired := 1, bFired := 0, cFired := 0, dFired := 0
    eFired := 0, fFired := 0, gFired := 0, hFired := 0
    aLow := true, bLow := true, cLow := true, dLow := true
    eLow := true, fLow := true, gLow := true, hLow := true
    alarmFires := false, wifiConnected := true, dateTime := dt }

/-- `n` iterations of the loop, each accepting one toggle event from
button A. -/
def togglesFrom (st : SysState) (dt : DateTimeV) : Nat → SysState
  | 0 => st
  | n + 1 => (loopIteration (togglesFrom st dt n) (toggleInput dt)).1

/-! ### Basic lemmas about the flag table and the interrupt handlers -/

@[simp]
lemma Flags.get_set (fl : Flags) (bx cx : Button) (v : Bool) :
    (fl.set bx v).get cx = if cx = bx then v else fl.get cx := by
  cases bx <;> cases cx <;> simp [Flags.get, Flags.set]

lemma buttonName_inj {bx cx : Button} (h : buttonName bx = buttonName cx) : bx = cx := by
  cases bx <;> cases cx <;> simp_all [buttonName]

@[simp]
lemma handle_button_default_mode (st : SysState) (s : String) :
    (handle_button_default st s).mode = st.mode := by
  simp [handle_button_default]

@[simp]
lemma handle_button_default_cells (st : SysState) (s : String) :
    (handle_button_default st s).cells = st.cells := by
  simp [handle_button_default]

@[simp]
lemma handle_button_default_alarmMatched (st : SysState) (s : String) :
    (handle_button_default st s).alarmMatched = st.alarmMatched := by
  simp [handle_button_default]

/-- `handle_button_default` applied to a button's own name string equals
setting that button's flag and the pending bit. -/
lemma handle_button_default_name_eq (st : SysState) (bx : Button) :
    handle_button_default st (buttonName bx)
      = { st with flags := st.flags.set bx true, pending := true } := by
  cases bx <;> rfl

lemma handle_button_default_get_name (st : SysState) (bx : Button) :
    (handle_button_default st (buttonName bx)).flags.get bx = true := by
  rw [handle_button_default_name_eq]
  simp

lemma handle_button_default_get_of_ne (st : SysState) {cx bx : Button}
    (h : cx ≠ bx) :
    (handle_button_default st (buttonName cx)).flags.get bx = st.flags.get bx := by
  rw [handle_button_default_name_eq]
  simp [Ne.symm h]

lemma Flags.set_set (fl : Flags) (bx : Button) (v w : Bool) :
    (fl.set bx v).set bx w = fl.set bx w := by
  cases bx <;> simp [Flags.set]

lemma handle_button_default_idem (st : SysState) (bx : Button) :
    handle_button_default (handle_button_default st (buttonName bx)) (buttonName bx)
      = handle_button_default st (buttonName bx) := by
  rw [handle_button_default_name_eq, handle_button_default_name_eq]
  simp [Flags.set_set]

@[simp]
lemma fireN_zero (s : String) (st : SysState) : fireN s 0 st = st := rfl

@[simp]
lemma fireN_mode (s : String) (n : Nat) (st : SysState) :
    (fireN s n st).mode = st.mode := by
  induction n <;> simp [fireN, *]

@[simp]
lemma fireN_cells (s : String) (n : Nat) (st : SysState) :
    (fireN s n st).cells = st.cells := by
  induction n <;> simp [fireN, *]

@[simp]
lemma fireN_alarmMatched (s : String) (n : Nat) (st : SysState) :
    (fireN s n st).alarmMatched = st.alarmMatched := by
  induction n <;> simp [fireN, *]

lemma fireN_get_of_ne {cx bx : Button} (h : cx ≠ bx)
    (n : Nat) (st : SysState) :
    (fireN (buttonName cx) n st).flags.get bx = st.flags.get bx := by
  induction n with
  | zero => rfl
  | succ m ih => simp [fireN, handle_button_default_get_of_ne _ h, ih]

lemma fireN_get_name (bx : Button) (st : SysState) {n : Nat} (h : 1 ≤ n) :
    (fireN (buttonName bx) n st).flags.get bx = true := by
  cases n with
  | zero => omega
  | succ m => simp [fireN, handle_button_default_get_name]

lemma fireN_coalesce (bx : Button) (st : SysState) {n : Nat} (h : 1 ≤ n) :
    fireN (buttonName bx) n st = fireN (buttonName bx) 1 st := by
  induction n with
  | zero => omega
  | succ m ih =>
    rcases Nat.eq_zero_or_pos m with h0 | hm
    · subst h0; rfl
    · calc fireN (buttonName bx) (m + 1) st
          = handle_button_default (fireN (buttonName bx) m st) (buttonName bx) := rfl
        _ = handle_button_default (fireN (buttonName bx) 1 st) (buttonName bx) := by
            rw [ih hm]
        _ = handle_button_default (handle_button_default st (buttonName bx)) (buttonName bx) := rfl
        _ = handle_button_default st (buttonName bx) := handle_button_default_idem st bx
        _ = fireN (buttonName bx) 1 st := rfl

/-! ### Lemmas about the wait phase -/

lemma foldFire_mode (l : List Button) (inp : Inputs) (st : SysState) :
    (l.foldl (fun s c => fireN (buttonName c) (inp.fired c) s) st).mode = st.mode := by
  induction l generalizing st <;> simp [List.foldl, *]

lemma foldFire_cells (l : List Button) (inp : Inputs) (st : SysState) :
    (l.foldl (fun s c => fireN (buttonName c) (inp.fired c) s) st).cells = st.cells := by
  induction l generalizing st <;> simp [List.foldl, *]

lemma foldFire_alarmMatched (l : List Button) (inp : Inputs) (st : SysState) :
    (l.foldl (fun s c => fireN (buttonName c) (inp.fired c) s) st).alarmMatched
      = st.alarmMatched := by
  induction l generalizing st <;> simp [List.foldl, *]

lemma foldFire_get (l : List Button) (inp : Inputs) (bx : Button) (st : SysState) :
    (l.foldl (fun s c => fireN (buttonName c) (inp.fired c) s) st).flags.get bx
      = if bx ∈ l ∧ 1 ≤ inp.fired bx then true else st.flags.get bx := by
  induction l generalizing st with
  | nil => simp
  | cons c rest ih =>
    simp only [List.foldl]
    rw [ih]
    by_cases hcb : bx = c
    · subst hcb
      by_cases hn : 1 ≤ inp.fired bx
      · have h1 : (fireN (buttonName bx) (inp.fired bx) st).flags.get bx = true :=
          fireN_get_name bx st hn
        by_cases hm : bx ∈ rest <;> simp [hm, hn, h1]
      · have h0 : inp.fired bx = 0 := by omega
        simp [h0]
    · have hname : c ≠ bx := fun hh => hcb hh.symm
      rw [fireN_get_of_ne hname]
      simp [List.mem_cons, hcb]

lemma applyFired_get (st : SysState) (inp : Inputs) (bx : Button) :
    (applyFired st inp).flags.get bx
      = if 1 ≤ inp.fired bx then true else st.flags.get bx := by
  have hb : bx ∈ buttonOrder := by cases bx <;> decide
  simp [applyFired, foldFire_get, hb]

@[simp]
lemma waitPhase_pending (st : SysState) (inp : Inputs) :
    (waitPhase st inp).pending = false := rfl

@[simp]
lemma waitPhase_mode (st : SysState) (inp : Inputs) :
    (waitPhase st inp).mode = st.mode := by
  by_cases h : inp.alarmFires <;>
    simp [waitPhase, h, handle_sqw_notice, applyFired, foldFire_mode]

@[simp]
lemma waitPhase_cells (st : SysState) (inp : Inputs) :
    (waitPhase st inp).cells = st.cells := by
  by_cases h : inp.alarmFires <;>
    simp [waitPhase, h, handle_sqw_notice, applyFired, foldFire_cells]

lemma waitPhase_alarmMatched (st : SysState) (inp : Inputs) :
    (waitPhase st inp).alarmMatched = (st.alarmMatched || inp.alarmFires) := by
  by_cases h : inp.alarmFires <;>
    simp [waitPhase, h, handle_sqw_notice, applyFired, foldFire_alarmMatched]

lemma waitPhase_get (st : SysState) (inp : Inputs) (bx : Button) :
    (waitPhase st inp).flags.get bx
      = if 1 ≤ inp.fired bx then true else st.flags.get bx := by
  by_cases h : inp.alarmFires <;>
    simp [waitPhase, h, handle_sqw_notice, applyFired_get]

/-! ### Lemmas about the alarm phase -/

@[simp]
lemma alarmPhase_flags (st : SysState) : (alarmPhase st).1.flags = st.flags := by
  by_cases h : st.alarmMatched <;> simp [alarmPhase, handle_alarm_every_minute, h]

@[simp]
lemma alarmPhase_mode (st : SysState) : (alarmPhase st).1.mode = st.mode := by
  by_cases h : st.alarmMatched <;> simp [alarmPhase, handle_alarm_every_minute, h]

@[simp]
lemma alarmPhase_cells (st : SysState) : (alarmPhase st).1.cells = st.cells := by
  by_cases h : st.alarmMatched <;> simp [alarmPhase, handle_alarm_every_minute, h]

@[simp]
lemma alarmPhase_alarmMatched (st : SysState) :
    (alarmPhase st).1.alarmMatched = false := by
  by_cases h : st.alarmMatched <;> simp [alarmPhase, handle_alarm_every_minute, h]

lemma alarmPhase_trace (st : SysState) :
    (alarmPhase st).2
      = if st.alarmMatched then
          [Event.rtcClearAlarm2MatchedFlag,
           Event.rtcSetAlarm2Day 1 0 0 AlarmMatching.oncePerMinute]
        else [] := by
  by_cases h : st.alarmMatched <;> simp [alarmPhase, handle_alarm_every_minute, h]

lemma acceptedAt_eq (st : SysState) (inp : Inputs) (bx : Button) :
    acceptedAt st inp bx
      = ((if 1 ≤ inp.fired bx then true else st.flags.get bx) && inp.low bx) := by
  simp [acceptedAt, waitPhase_get]

/-! ### The button-dispatch section in closed form -/

set_option maxHeartbeats 4000000 in
/-- Closed form of the eight sequential button blocks: the final state
clears exactly the accepted flags and toggles the mode exactly when
button A is accepted, and the trace is the concatenation of the
per-button segments in the fixed a..h order. -/
lemma dispatchButtons_eq (st : SysState) (inp : Inputs) :
    dispatchButtons st inp =
      ({ st with
          mode := if st.flags.a && inp.aLow then toggleMode st.mode else st.mode
          flags :=
            ⟨if st.flags.a && inp.aLow then false else st.flags.a,
             if st.flags.b && inp.bLow then false else st.flags.b,
             if st.flags.c && inp.cLow then false else st.flags.c,
             if st.flags.d && inp.dLow then false else st.flags.d,
             if st.flags.e && inp.eLow then false else st.flags.e,
             if st.flags.f && inp.fLow then false else st.flags.f,
             if st.flags.g && inp.gLow then false else st.flags.g,
             if st.flags.h && inp.hLow then false else st.flags.h⟩ },
       (buttonOrder.map (dispatchSeg st inp)).flatten) := by
  rcases st with ⟨⟨fa, fb, fc, fd, fe, ff, fg, fh⟩, mo, ce, am, pe⟩
  by_cases hA : (fa && inp.aLow) = true <;>
  by_cases hB : (fb && inp.bLow) = true <;>
  by_cases hC : (fc && inp.cLow) = true <;>
  by_cases hD : (fd && inp.dLow) = true <;>
  by_cases hE : (fe && inp.eLow) = true <;>
  by_cases hF : (ff && inp.fLow) = true <;>
  by_cases hG : (fg && inp.gLow) = true <;>
  by_cases hH : (fh && inp.hLow) = true <;>
  simp [dispatchButtons, dispatchList, buttonOrder, buttonBlock, buttonAction,
        dispatchSeg, Flags.get, Flags.set, Inputs.low, hA, hB, hC, hD, hE, hF, hG, hH]

lemma dispatchButtons_trace (st : SysState) (inp : Inputs) :
    (dispatchButtons st inp).2 = (buttonOrder.map (dispatchSeg st inp)).flatten := by
  rw [dispatchButtons_eq]

lemma dispatchButtons_mode (st : SysState) (inp : Inputs) :
    (dispatchButtons st inp).1.mode
      = if st.flags.get .a && inp.low .a then toggleMode st.mode else st.mode := by
  rw [dispatchButtons_eq]
  rfl

lemma dispatchButtons_get (st : SysState) (inp : Inputs) (bx : Button) :
    (dispatchButtons st inp).1.flags.get bx
      = if st.flags.get bx && inp.low bx then false else st.flags.get bx := by
  rw [dispatchButtons_eq]
  cases bx <;> rfl

lemma dispatchButtons_cells (st : SysState) (inp : Inputs) :
    (dispatchButtons st inp).1.cells = st.cells := by
  rw [dispatchButtons_eq]

lemma dispatchButtons_alarmMatched (st : SysState) (inp : Inputs) :
    (dispatchButtons st inp).1.alarmMatched = st.alarmMatched := by
  rw [dispatchButtons_eq]

lemma dispatchButtons_pending (st : SysState) (inp : Inputs) :
    (dispatchButtons st inp).1.pending = st.pending := by
  rw [dispatchButtons_eq]

/-! ### The loop iteration in terms of its phases -/

lemma alarmPhase_pending (st : SysState) : (alarmPhase st).1.pending = st.pending := by
  by_cases h : st.alarmMatched <;> simp [alarmPhase, handle_alarm_every_minute, h]

lemma loopIteration_fst (st : SysState) (inp : Inputs) :
    (loopIteration st inp).1
      = (dispatchButtons (alarmPhase (waitPhase st inp)).1 inp).1 := rfl

lemma loopIteration_trace (st : SysState) (inp : Inputs) :
    (loopIteration st inp).2
      = armOrder.map Event.enableInterrupt
          ++ (redrawStep st inp.dateTime).2
          ++ [Event.waitNotification, Event.delayMs 100]
          ++ (alarmPhase (waitPhase st inp)).2
          ++ (buttonOrder.map (dispatchSeg (alarmPhase (waitPhase st inp)).1 inp)).flatten
          ++ (if inp.wifiConnected then []
              else [Event.wifiReconnect, Event.delayMs 5000]) := by
  show _ ++ _ ++ _ ++ _ ++ (dispatchButtons (alarmPhase (waitPhase st inp)).1 inp).2 ++ _ = _
  rw [dispatchButtons_trace]

lemma loopIteration_mode (st : SysState) (inp : Inputs) :
    (loopIteration st inp).1.mode
      = if acceptedAt st inp .a then toggleMode st.mode else st.mode := by
  rw [loopIteration_fst, dispatchButtons_mode, alarmPhase_mode, waitPhase_mode]
  rfl

lemma loopIteration_get (st : SysState) (inp : Inputs) (bx : Button) :
    (loopIteration st inp).1.flags.get bx
      = if acceptedAt st inp bx then false
        else (waitPhase st inp).flags.get bx := by
  rw [loopIteration_fst, dispatchButtons_get, alarmPhase_flags]
  simp [acceptedAt, alarmPhase_flags]

lemma loopIteration_cells (st : SysState) (inp : Inputs) :
    (loopIteration st inp).1.cells = st.cells := by
  rw [loopIteration_fst, dispatchButtons_cells, alarmPhase_cells, waitPhase_cells]

lemma loopIteration_alarmMatched (st : SysState) (inp : Inputs) :
    (loopIteration st inp).1.alarmMatched = false := by
  rw [loopIteration_fst, dispatchButtons_alarmMatched, alarmPhase_alarmMatched]

lemma loopIteration_pending (st : SysState) (inp : Inputs) :
    (loopIteration st inp).1.pending = false := by
  rw [loopIteration_fst, dispatchButtons_pending, alarmPhase_pending, waitPhase_pending]

/-! ### Event counts in the trace of one iteration -/

lemma count_clearFlag_buttonAction (st : SysState) (cx bx : Button) :
    ((buttonAction st cx).2).count (Event.clearFlag bx) = 0 := by
  cases cx <;> simp [buttonAction]

lemma count_rtcClear_buttonAction (st : SysState) (cx : Button) :
    ((buttonAction st cx).2).count Event.rtcClearAlarm2MatchedFlag = 0 := by
  cases cx <;> simp [buttonAction]

lemma count_rtcSet_buttonAction (st : SysState) (cx : Button) :
    ((buttonAction st cx).2).count
      (Event.rtcSetAlarm2Day 1 0 0 AlarmMatching.oncePerMinute) = 0 := by
  cases cx <;> simp [buttonAction]

lemma count_clearFlag_seg (st : SysState) (inp : Inputs) (cx bx : Button) :
    (dispatchSeg st inp cx).count (Event.clearFlag bx)
      = if cx = bx ∧ (st.flags.get cx && inp.low cx) = true then 1 else 0 := by
  by_cases hc : (st.flags.get cx && inp.low cx) = true
  · by_cases hbc : cx = bx
    · subst hbc
      simp [dispatchSeg, hc, List.count_append, count_clearFlag_buttonAction]
    · simp [dispatchSeg, hc, List.count_append, count_clearFlag_buttonAction,
        List.count_singleton, hbc]
  · simp [dispatchSeg, hc]

lemma count_rtcClear_seg (st : SysState) (inp : Inputs) (cx : Button) :
    (dispatchSeg st inp cx).count Event.rtcClearAlarm2MatchedFlag = 0 := by
  by_cases hc : (st.flags.get cx && inp.low cx) = true <;>
    simp [dispatchSeg, hc, List.count_append, count_rtcClear_buttonAction]

lemma count_rtcSet_seg (st : SysState) (inp : Inputs) (cx : Button) :
    (dispatchSeg st inp cx).count
      (Event.rtcSetAlarm2Day 1 0 0 AlarmMatching.oncePerMinute) = 0 := by
  by_cases hc : (st.flags.get cx && inp.low cx) = true <;>
    simp [dispatchSeg, hc, List.count_append, count_rtcSet_buttonAction]

lemma count_clearFlag_dispatch (st : SysState) (inp : Inputs) (bx : Button) :
    ((dispatchButtons st inp).2).count (Event.clearFlag bx)
      = if (st.flags.get bx && inp.low bx) = true then 1 else 0 := by
  rw [dispatchButtons_trace, List.count_flatten]
  cases bx <;>
    simp [buttonOrder, count_clearFlag_seg]

lemma count_rtcClear_dispatch (st : SysState) (inp : Inputs) :
    ((dispatchButtons st inp).2).count Event.rtcClearAlarm2MatchedFlag = 0 := by
  rw [dispatchButtons_trace, List.count_flatten]
  simp [buttonOrder, count_rtcClear_seg]

lemma count_rtcSet_dispatch (st : SysState) (inp : Inputs) :
    ((dispatchButtons st inp).2).count
      (Event.rtcSetAlarm2Day 1 0 0 AlarmMatching.oncePerMinute) = 0 := by
  rw [dispatchButtons_trace, List.count_flatten]
  simp [buttonOrder, count_rtcSet_seg]

lemma count_clearFlag_redraw (st : SysState) (dt : DateTimeV) (bx : Button) :
    ((redrawStep st dt).2).count (Event.clearFlag bx) = 0 := by
  unfold redrawStep
  split_ifs <;> simp

lemma count_rtcClear_redraw (st : SysState) (dt : DateTimeV) :
    ((redrawStep st dt).2).count Event.rtcClearAlarm2MatchedFlag = 0 := by
  unfold redrawStep
  split_ifs <;> simp

lemma count_rtcSet_redraw (st : SysState) (dt : DateTimeV) :
    ((redrawStep st dt).2).count
      (Event.rtcSetAlarm2Day 1 0 0 AlarmMatching.oncePerMinute) = 0 := by
  unfold redrawStep
  split_ifs <;> simp

lemma count_clearFlag_arm (bx : Button) :
    (armOrder.map Event.enableInterrupt).count (Event.clearFlag bx) = 0 := by
  rw [List.count_eq_zero]
  simp [List.mem_map]

lemma count_rtcClear_arm :
    (armOrder.map Event.enableInterrupt).count Event.rtcClearAlarm2MatchedFlag = 0 := by
  rw [List.count_eq_zero]
  simp [List.mem_map]

lemma count_rtcSet_arm :
    (armOrder.map Event.enableInterrupt).count
      (Event.rtcSetAlarm2Day 1 0 0 AlarmMatching.oncePerMinute) = 0 := by
  rw [List.count_eq_zero]
  simp [List.mem_map]

lemma count_clearFlag_pair (bx : Button) :
    ([Event.waitNotification, Event.delayMs 100] : List Event).count
      (Event.clearFlag bx) = 0 := by
  rw [List.count_eq_zero]
  simp

lemma count_rtcClear_pair :
    ([Event.waitNotification, Event.delayMs 100] : List Event).count
      Event.rtcClearAlarm2MatchedFlag = 0 := by
  rw [List.count_eq_zero]
  simp

lemma count_rtcSet_pair :
    ([Event.waitNotification, Event.delayMs 100] : List Event).count
      (Event.rtcSetAlarm2Day 1 0 0 AlarmMatching.oncePerMinute) = 0 := by
  rw [List.count_eq_zero]
  simp

lemma count_clearFlag_alarmTrace (st : SysState) (bx : Button) :
    ((alarmPhase st).2).count (Event.clearFlag bx) = 0 := by
  rw [alarmPhase_trace]
  split_ifs <;> (rw [List.count_eq_zero]; simp)

lemma count_rtcClear_alarmTrace (st : SysState) :
    ((alarmPhase st).2).count Event.rtcClearAlarm2MatchedFlag
      = if st.alarmMatched then 1 else 0 := by
  rw [alarmPhase_trace]
  split_ifs <;> simp [List.count_cons]

lemma count_rtcSet_alarmTrace (st : SysState) :
    ((alarmPhase st).2).count (Event.rtcSetAlarm2Day 1 0 0 AlarmMatching.oncePerMinute)
      = if st.alarmMatched then 1 else 0 := by
  rw [alarmPhase_trace]
  split_ifs <;> simp [List.count_cons]

lemma count_clearFlag_wifi (inp : Inputs) (bx : Button) :
    ((if inp.wifiConnected then ([] : List Event)
      else [Event.wifiReconnect, Event.delayMs 5000]).count (Event.clearFlag bx)) = 0 := by
  split_ifs <;> (rw [List.count_eq_zero]; simp)

lemma count_rtcClear_wifi (inp : Inputs) :
    ((if inp.wifiConnected then ([] : List Event)
      else [Event.wifiReconnect, Event.delayMs 5000]).count
        Event.rtcClearAlarm2MatchedFlag) = 0 := by
  split_ifs <;> (rw [List.count_eq_zero]; simp)

lemma count_rtcSet_wifi (inp : Inputs) :
    ((if inp.wifiConnected then ([] : List Event)
      else [Event.wifiReconnect, Event.delayMs 5000]).count
        (Event.rtcSetAlarm2Day 1 0 0 AlarmMatching.oncePerMinute)) = 0 := by
  split_ifs <;> (rw [List.count_eq_zero]; simp)

lemma loop_count_clearFlag (st : SysState) (inp : Inputs) (bx : Button) :
    ((loopIteration st inp).2).count (Event.clearFlag bx)
      = if acceptedAt st inp bx then 1 else 0 := by
  have hd := count_clearFlag_dispatch (alarmPhase (waitPhase st inp)).1 inp bx
  rw [dispatchButtons_trace] at hd
  rw [loopIteration_trace, List.count_append, List.count_append, List.count_append,
    List.count_append, List.count_append, count_clearFlag_arm, count_clearFlag_redraw,
    count_clearFlag_pair, count_clearFlag_alarmTrace, count_clearFlag_wifi, hd]
  simp [acceptedAt]

lemma loop_count_rtcClear (st : SysState) (inp : Inputs) :
    ((loopIteration st inp).2).count Event.rtcClearAlarm2MatchedFlag
      = if st.alarmMatched || inp.alarmFires then 1 else 0 := by
  have hd := count_rtcClear_dispatch (alarmPhase (waitPhase st inp)).1 inp
  rw [dispatchButtons_trace] at hd
  rw [loopIteration_trace, List.count_append, List.count_append, List.count_append,
    List.count_append, List.count_append, count_rtcClear_arm, count_rtcClear_redraw,
    count_rtcClear_pair, count_rtcClear_alarmTrace, count_rtcClear_wifi, hd,
    waitPhase_alarmMatched]
  simp

lemma loop_count_rtcSet (st : SysState) (inp : Inputs) :
    ((loopIteration st inp).2).count
        (Event.rtcSetAlarm2Day 1 0 0 AlarmMatching.oncePerMinute)
      = if st.alarmMatched || inp.alarmFires then 1 else 0 := by
  have hd := count_rtcSet_dispatch (alarmPhase (waitPhase st inp)).1 inp
  rw [dispatchButtons_trace] at hd
  rw [loopIteration_trace, List.count_append, List.count_append, List.count_append,
    List.count_append, List.count_append, count_rtcSet_arm, count_rtcSet_redraw,
    count_rtcSet_pair, count_rtcSet_alarmTrace, count_rtcSet_wifi, hd,
    waitPhase_alarmMatched]
  simp

/-! ### Claims -/

/-- C3 (counterexample): the claim says that on a decode failure every
exchange cell keeps its previous value. In the code
(src/main.rs:229-246) only TEMP and HUMID are guarded by the zero test;
PM2_5 and PM10 are stored unconditionally, so a failing payload (here an
invalid-UTF-8 one) overwrites PM2_5 = 5 and PM10 = 7 with the zero
sentinel while TEMP keeps its value. -/
theorem claim_C3_counterexample :
    (mqttReceivedStep ⟨21, 50, 5, 7⟩ DecodeOutcome.utf8Error).pm2_5 = 0
    ∧ (mqttReceivedStep ⟨21, 50, 5, 7⟩ DecodeOutcome.utf8Error).pm2_5 ≠ 5
    ∧ (mqttReceivedStep ⟨21, 50, 5, 7⟩ DecodeOutcome.utf8Error).pm10 = 0
    ∧ (mqttReceivedStep ⟨21, 50, 5, 7⟩ DecodeOutcome.utf8Error).pm10 ≠ 7
    ∧ (mqttReceivedStep ⟨21, 50, 5, 7⟩ DecodeOutcome.utf8Error).temp = 21 := by
  refine ⟨?_, ?_, ?_, ?_, ?_⟩ <;> decide

/-- C3 (amended): for every received payload that fails to decode
(non-UTF-8 bytes or malformed JSON), the TEMP and HUMID exchange cells
are left at their previous values, while the PM2_5 and PM10 cells are
overwritten with the zero sentinel. -/
theorem claim_C3 (cells : Cells) (raw : DecodeOutcome)
    (h : raw = DecodeOutcome.utf8Error ∨ raw = DecodeOutcome.jsonError) :
    (mqttReceivedStep cells raw).temp = cells.temp
    ∧ (mqttReceivedStep cells raw).humid = cells.humid
    ∧ (mqttReceivedStep cells raw).pm2_5 = 0
    ∧ (mqttReceivedStep cells raw).pm10 = 0 := by
  rcases h with h | h <;> subst h <;> exact ⟨rfl, rfl, rfl, rfl⟩

/-- Witness for C3 at concrete cells `⟨1, 2, 3, 4⟩` and a UTF-8 decode
failure. -/
theorem claim_C3_witness :
    (DecodeOutcome.utf8Error = DecodeOutcome.utf8Error
        ∨ DecodeOutcome.utf8Error = DecodeOutcome.jsonError)
    ∧ ((mqttReceivedStep ⟨1, 2, 3, 4⟩ DecodeOutcome.utf8Error).temp
          = (⟨1, 2, 3, 4⟩ : Cells).temp
        ∧ (mqttReceivedStep ⟨1, 2, 3, 4⟩ DecodeOutcome.utf8Error).humid
          = (⟨1, 2, 3, 4⟩ : Cells).humid
        ∧ (mqttReceivedStep ⟨1, 2, 3, 4⟩ DecodeOutcome.utf8Error).pm2_5 = 0
        ∧ (mqttReceivedStep ⟨1, 2, 3, 4⟩ DecodeOutcome.utf8Error).pm10 = 0) :=
  ⟨Or.inl rfl, claim_C3 ⟨1, 2, 3, 4⟩ DecodeOutcome.utf8Error (Or.inl rfl)⟩

/-- C4 (counterexample): after the network task stores temperature 23 and
humidity 61, the second line drawn by the clock redraw is
`"  T 23C  H 61%"` (from `format!("  T {}C  H {}%", ..)` in
src/main.rs:486), which is not the string `"T 23C   H 61%"` the claim
requires. -/
theorem claim_C4_counterexample :
    (mqttReceivedStep ⟨0, 0, 0, 0⟩ (DecodeOutcome.ok ⟨23, 61, 0, 0⟩)).temp = 23
    ∧ (mqttReceivedStep ⟨0, 0, 0, 0⟩ (DecodeOutcome.ok ⟨23, 61, 0, 0⟩)).humid = 61
    ∧ (display_clock_lines ⟨2024, 5, 1, 12, 7, 30⟩ 23 61).2 = "  T 23C  H 61%"
    ∧ (display_clock_lines ⟨2024, 5, 1, 12, 7, 30⟩ 23 61).2 ≠ "T 23C   H 61%" := by
  refine ⟨?_, ?_, ?_, ?_⟩ <;> decide

lemma mqtt_temp_23_61 (cells : Cells) (p1 p2 : ℚ) :
    (mqttReceivedStep cells (DecodeOutcome.ok ⟨23, 61, p1, p2⟩)).temp = 23
    ∧ (mqttReceivedStep cells (DecodeOutcome.ok ⟨23, 61, p1, p2⟩)).humid = 61 := by
  have hne23 : (23 : ℚ) ≠ 0 := by norm_num
  have hne61 : (61 : ℚ) ≠ 0 := by norm_num
  have h23 : ratToU32 23 = 23 := by decide
  have h61 : ratToU32 61 = 61 := by decide
  constructor <;> simp [mqttReceivedStep, convert_event_data, hne23, hne61, h23, h61]

lemma display_line2_23_61 (dt : DateTimeV) :
    (display_clock_lines dt 23 61).2 = "  T 23C  H 61%" := by
  simp only [display_clock_lines]
  decide

/-- C4 (amended): after the network task stores temperature 23 and
humidity 61 into the exchange cells, the next clock-mode redraw's second
display line is exactly `"  T 23C  H 61%"` (two leading spaces and two
spaces before `H`), and values below 10 are zero-padded to width two by
`pad_single_digit`. -/
theorem claim_C4 (cells : Cells) (stx : SysState) (dt : DateTimeV) (p1 p2 : ℚ) (n : Nat)
    (hm : stx.mode = 0) (hn : n < 10) :
    (mqttReceivedStep cells (DecodeOutcome.ok ⟨23, 61, p1, p2⟩)).temp = 23
    ∧ (mqttReceivedStep cells (DecodeOutcome.ok ⟨23, 61, p1, p2⟩)).humid = 61
    ∧ (display_clock_lines dt 23 61).2 = "  T 23C  H 61%"
    ∧ (redrawStep { stx with
          cells := mqttReceivedStep stx.cells (DecodeOutcome.ok ⟨23, 61, p1, p2⟩) } dt).2
        = [Event.displayClockDraw (display_clock_lines dt 23 61).1 "  T 23C  H 61%"]
    ∧ pad_single_digit n = "0" ++ toString n := by
  obtain ⟨ht, hh⟩ := mqtt_temp_23_61 cells p1 p2
  obtain ⟨ht2, hh2⟩ := mqtt_temp_23_61 stx.cells p1 p2
  refine ⟨ht, hh, display_line2_23_61 dt, ?_, ?_⟩
  · simp [redrawStep, hm, ht2, hh2, display_line2_23_61 dt]
  · simp [pad_single_digit, hn]

/-- Witness for C4 in the initial state (mode 0) with a concrete
date-time and `n = 7`. -/
theorem claim_C4_witness :
    (initialState.mode = 0 ∧ 7 < 10)
    ∧ ((mqttReceivedStep ⟨0, 0, 0, 0⟩ (DecodeOutcome.ok ⟨23, 61, 0, 0⟩)).temp = 23
      ∧ (mqttReceivedStep ⟨0, 0, 0, 0⟩ (DecodeOutcome.ok ⟨23, 61, 0, 0⟩)).humid = 61
      ∧ (display_clock_lines ⟨2024, 5, 1, 12, 7, 30⟩ 23 61).2 = "  T 23C  H 61%"
      ∧ (redrawStep { initialState with
            cells := mqttReceivedStep initialState.cells (DecodeOutcome.ok ⟨23, 61, 0, 0⟩) }
            ⟨2024, 5, 1, 12, 7, 30⟩).2
          = [Event.displayClockDraw
              (display_clock_lines ⟨2024, 5, 1, 12, 7, 30⟩ 23 61).1 "  T 23C  H 61%"]
      ∧ pad_single_digit 7 = "0" ++ toString 7) :=
  ⟨⟨rfl, by decide⟩,
   claim_C4 ⟨0, 0, 0, 0⟩ initialState ⟨2024, 5, 1, 12, 7, 30⟩ 0 0 7 rfl (by decide)⟩

/-- C1: all hardware edges on one source strictly between two wake-ups
coalesce into a single pending flag — `n ≥ 1` interrupt-handler runs set
the flag and are indistinguishable from one run — and the iteration that
wakes with the line settled low consumes the flag exactly once,
delivering exactly one logical event (one `clearFlag`) for that source. -/
theorem claim_C1 (st : SysState) (inp : Inputs) (bx : Button) (n : Nat)
    (h1 : 1 ≤ n) (h2 : inp.fired bx = n) (h3 : inp.low bx = true) :
    (fireN (buttonName bx) n st).flags.get bx = true
    ∧ fireN (buttonName bx) n st = fireN (buttonName bx) 1 st
    ∧ ((loopIteration st inp).2).count (Event.clearFlag bx) = 1 := by
  refine ⟨fireN_get_name bx st h1, fireN_coalesce bx st h1, ?_⟩
  have hacc : acceptedAt st inp bx = true := by
    rw [acceptedAt_eq, h2]
    simp [h1, h3]
  rw [loop_count_clearFlag, hacc]
  simp

/-- Concrete environment for the C1 witness: three edges on button A
during the wait, line A low at dispatch. -/
def c1WitnessInput : Inputs :=
  ⟨3, 0, 0, 0, 0, 0, 0, 0,
   true, true, true, true, true, true, true, true,
   false, true, ⟨2024, 1, 2, 3, 4, 5⟩⟩

/-- Witness for C1 at `n = 3` edges on button A from the initial state. -/
theorem claim_C1_witness :
    (1 ≤ 3 ∧ c1WitnessInput.fired .a = 3 ∧ c1WitnessInput.low .a = true)
    ∧ ((fireN (buttonName .a) 3 initialState).flags.get .a = true
      ∧ fireN (buttonName .a) 3 initialState = fireN (buttonName .a) 1 initialState
      ∧ ((loopIteration initialState c1WitnessInput).2).count (Event.clearFlag .a) = 1) :=
  ⟨⟨by decide, by decide, by decide⟩,
   claim_C1 initialState c1WitnessInput .a 3 (by decide) (by decide) (by decide)⟩

/-- C2: when the loop wakes, the eight button blocks are tested in the
fixed order a..h; each button's block runs iff its flag is observed set
and its line reads low (`is_low()`, the settled level for the
`PosEdge`-triggered lines); an accepted block emits its action events
first and stores the flag `false` last, and the final flag table clears
exactly the accepted flags. -/
theorem claim_C2 (st : SysState) (inp : Inputs) :
    (loopIteration st inp).2
      = armOrder.map Event.enableInterrupt
          ++ (redrawStep st inp.dateTime).2
          ++ [Event.waitNotification, Event.delayMs 100]
          ++ (alarmPhase (waitPhase st inp)).2
          ++ (buttonOrder.map (dispatchSeg (alarmPhase (waitPhase st inp)).1 inp)).flatten
          ++ (if inp.wifiConnected then [] else [Event.wifiReconnect, Event.delayMs 5000])
    ∧ (∀ bx : Button,
        dispatchSeg (alarmPhase (waitPhase st inp)).1 inp bx
          = if acceptedAt st inp bx then
              (buttonAction (alarmPhase (waitPhase st inp)).1 bx).2 ++ [Event.clearFlag bx]
            else [])
    ∧ (∀ bx : Button,
        (loopIteration st inp).1.flags.get bx
          = if acceptedAt st inp bx then false
            else (waitPhase st inp).flags.get bx) :=
  ⟨loopIteration_trace st inp, fun _ => rfl, loopIteration_get st inp⟩

/-- C5: `handle_alarm_every_minute` first clears the peripheral's alarm-2
match flag and then programs the once-per-minute recurrence; it runs
exactly once at startup (before the loop), and in every iteration it runs
exactly once when the match flag is observed set and not at all
otherwise. -/
theorem claim_C5 (st : SysState) (inp : Inputs) :
    (handle_alarm_every_minute st).2
      = [Event.rtcClearAlarm2MatchedFlag,
         Event.rtcSetAlarm2Day 1 0 0 AlarmMatching.oncePerMinute]
    ∧ (handle_alarm_every_minute st).1.alarmMatched = false
    ∧ startupTrace
        = [Event.rtcClearAlarm2MatchedFlag,
           Event.rtcSetAlarm2Day 1 0 0 AlarmMatching.oncePerMinute]
    ∧ stateAtLoopEntry.alarmMatched = false
    ∧ ((loopIteration st inp).2).count Event.rtcClearAlarm2MatchedFlag
        = (if st.alarmMatched || inp.alarmFires then 1 else 0)
    ∧ ((loopIteration st inp).2).count
          (Event.rtcSetAlarm2Day 1 0 0 AlarmMatching.oncePerMinute)
        = (if st.alarmMatched || inp.alarmFires then 1 else 0) :=
  ⟨rfl, rfl, rfl, rfl, loop_count_rtcClear st inp, loop_count_rtcSet st inp⟩

/-- C6: every iteration starts by re-arming all nine edge sources (the
sqw alarm line and buttons a..h) unconditionally: the first nine events
of every iteration's trace are exactly the nine enable events, every
source's enable is among them, and the blocking wait only occurs later
in the trace. -/
theorem claim_C6 (st : SysState) (inp : Inputs) (s : Source) :
    ((loopIteration st inp).2).take 9 = armOrder.map Event.enableInterrupt
    ∧ Event.enableInterrupt s ∈ ((loopIteration st inp).2).take 9
    ∧ Event.waitNotification ∉ ((loopIteration st inp).2).take 9
    ∧ Event.waitNotification ∈ (loopIteration st inp).2 := by
  have htake : ((loopIteration st inp).2).take 9 = armOrder.map Event.enableInterrupt := rfl
  refine ⟨htake, ?_, ?_, ?_⟩
  · rw [htake]
    cases s with
    | sqw => decide
    | btn bx => cases bx <;> decide
  · rw [htake]
    decide
  · rw [loopIteration_trace]
    simp [List.mem_append]

/-- One loop iteration from the all-clear state with exactly one accepted
button-A toggle leaves only the display mode changed. -/
lemma toggle_step (k : Nat) (dt : DateTimeV) :
    (loopIteration
        ⟨⟨false, false, false, false, false, false, false, false⟩, k, ⟨0, 0, 0, 0⟩, false, false⟩
        (toggleInput dt)).1
      = ⟨⟨false, false, false, false, false, false, false, false⟩, toggleMode k,
          ⟨0, 0, 0, 0⟩, false, false⟩ := rfl

/-- C7: starting from the initial state (mode 0), `N` loop iterations
that each accept one toggle event from button A leave
`CURRENT_DISPLAY_STATE = N mod 2`; the code has exactly the two modes
0 (clock) and 1 (air quality). -/
theorem claim_C7 (N : Nat) (dt : DateTimeV) :
    (togglesFrom initialState dt N).mode = N % 2 := by
  have key : ∀ n, togglesFrom initialState dt n
      = ⟨⟨false, false, false, false, false, false, false, false⟩, n % 2,
          ⟨0, 0, 0, 0⟩, false, false⟩ := by
    intro n
    induction n with
    | zero => rfl
    | succ m ih =>
      show (loopIteration (togglesFrom initialState dt m) (toggleInput dt)).1 = _
      rw [ih, toggle_step]
      congr 1
      rcases Nat.mod_two_eq_zero_or_one m with h | h <;> simp [toggleMode, h] <;> omega
  rw [key N]

/-- First line of the transient message each non-toggle button shows
(src/main.rs:308-380); button A shows no message. -/
def messageLine1 (bx : Button) : String :=
  match bx with
  | .a => ""
  | .b => "TURN ON/OFF AC"
  | .c => "TURN ON/OFF"
  | .d => "LIGHT MODE"
  | .e => "LIGHT MODE"
  | .f => "TURN ON/OFF LIGHT"
  | .g => "EMPTY FUNCTION"
  | .h => "EMPTY FUNCTION"

/-- Second line of the transient message each non-toggle button shows. -/
def messageLine2 (bx : Button) : String :=
  match bx with
  | .a => ""
  | .b => ""
  | .c => "   AIR FILTER"
  | .d => "   DAY"
  | .e => "  NIGHT"
  | .f => ""
  | .g => ""
  | .h => ""

lemma buttonAction_events_of_ne (st : SysState) {bx : Button} (h : bx ≠ .a) :
    (buttonAction st bx).2
      = [Event.displayMessage (messageLine1 bx) (messageLine2 bx),
         Event.sendCommand (buttonName bx), Event.delayMs 1000] := by
  cases bx <;> first | exact absurd rfl h | rfl

/-- C8: only button A ever changes the stored display mode. In any
iteration where button A is not accepted the mode is unchanged, even
though any other accepted button shows its transient message and sends
its one-letter command. -/
theorem claim_C8 (st : SysState) (inp : Inputs) (bx : Button)
    (hA : acceptedAt st inp .a = false) (hbx : bx ≠ .a)
    (hacc : acceptedAt st inp bx = true) :
    (loopIteration st inp).1.mode = st.mode
    ∧ Event.sendCommand (buttonName bx) ∈ (loopIteration st inp).2
    ∧ Event.displayMessage (messageLine1 bx) (messageLine2 bx)
        ∈ (loopIteration st inp).2 := by
  have hc : ((alarmPhase (waitPhase st inp)).1.flags.get bx && inp.low bx) = true := hacc
  obtain ⟨hg, hl⟩ := by simpa [Bool.and_eq_true] using hc
  have hseg : dispatchSeg (alarmPhase (waitPhase st inp)).1 inp bx
      = [Event.displayMessage (messageLine1 bx) (messageLine2 bx),
         Event.sendCommand (buttonName bx), Event.delayMs 1000, Event.clearFlag bx] := by
    simp [dispatchSeg, hg, hl, buttonAction_events_of_ne _ hbx]
  have hmem : ∀ ev ∈ dispatchSeg (alarmPhase (waitPhase st inp)).1 inp bx,
      ev ∈ (loopIteration st inp).2 := by
    intro ev hev
    rw [loopIteration_trace]
    have : ev ∈ (buttonOrder.map (dispatchSeg (alarmPhase (waitPhase st inp)).1 inp)).flatten := by
      rw [List.mem_flatten]
      refine ⟨dispatchSeg (alarmPhase (waitPhase st inp)).1 inp bx,
        List.mem_map_of_mem _ ?_, hev⟩
      cases bx <;> decide
    simp [List.mem_append, this]
  refine ⟨?_, ?_, ?_⟩
  · rw [loopIteration_mode, hA]
    simp
  · exact hmem _ (by rw [hseg]; simp)
  · exact hmem _ (by rw [hseg]; simp)

/-- Concrete environment for the C8 witness: one edge on button B, all
lines low, button A idle. -/
def c8WitnessInput : Inputs :=
  ⟨0, 1, 0, 0, 0, 0, 0, 0,
   true, true, true, true, true, true, true, true,
   false, true, ⟨2024, 1, 2, 3, 4, 5⟩⟩

/-- Witness for C8 with button B accepted from the initial state. -/
theorem claim_C8_witness :
    (acceptedAt initialState c8WitnessInput .a = false
      ∧ Button.b ≠ Button.a
      ∧ acceptedAt initialState c8WitnessInput .b = true)
    ∧ ((loopIteration initialState c8WitnessInput).1.mode = initialState.mode
      ∧ Event.sendCommand (buttonName .b) ∈ (loopIteration initialState c8WitnessInput).2
      ∧ Event.displayMessage (messageLine1 .b) (messageLine2 .b)
          ∈ (loopIteration initialState c8WitnessInput).2) :=
  ⟨⟨by decide, by decide, by decide⟩,
   claim_C8 initialState c8WitnessInput .b (by decide) (by decide) (by decide)⟩

/-- C9: the redraw is deterministic, idempotent and side-effect-free on
the data model: it returns the state unchanged, two consecutive
invocations with the same inputs draw byte-identical lines, and a whole
quiet loop iteration (no edges, no alarm, no pending flags) only clears
the notification's pending bit, so the next iteration redraws the same
lines. -/
theorem claim_C9 (st : SysState) (inp : Inputs)
    (hflags : st.flags = ⟨false, false, false, false, false, false, false, false⟩)
    (halarm : st.alarmMatched = false)
    (h1 : inp.aFired = 0) (h2 : inp.bFired = 0) (h3 : inp.cFired = 0) (h4 : inp.dFired = 0)
    (h5 : inp.eFired = 0) (h6 : inp.fFired = 0) (h7 : inp.gFired = 0) (h8 : inp.hFired = 0)
    (h9 : inp.alarmFires = false) :
    (redrawStep st inp.dateTime).1 = st
    ∧ (redrawStep ((redrawStep st inp.dateTime).1) inp.dateTime).2
        = (redrawStep st inp.dateTime).2
    ∧ (loopIteration st inp).1 = { st with pending := false }
    ∧ (redrawStep ((loopIteration st inp).1) inp.dateTime).2
        = (redrawStep st inp.dateTime).2 := by
  have hr : (redrawStep st inp.dateTime).1 = st := by
    unfold redrawStep
    split_ifs <;> rfl
  have hW : waitPhase st inp = { st with pending := false } := by
    simp [waitPhase, applyFired, buttonOrder, Inputs.fired, h1, h2, h3, h4, h5, h6, h7, h8, h9]
  have hA : (alarmPhase (waitPhase st inp)).1 = { st with pending := false } := by
    rw [hW]
    simp [alarmPhase, halarm]
  have hloop : (loopIteration st inp).1 = { st with pending := false } := by
    rw [loopIteration_fst, hA, dispatchButtons_eq]
    simp [hflags]
  refine ⟨hr, by rw [hr], hloop, ?_⟩
  rw [hloop]
  unfold redrawStep
  split_ifs <;> rfl

/-- Concrete quiet environment for the C9 witness. -/
def c9WitnessInput : Inputs :=
  ⟨0, 0, 0, 0, 0, 0, 0, 0,
   true, true, true, true, true, true, true, true,
   false, true, ⟨2024, 1, 2, 3, 4, 5⟩⟩

/-- Witness for C9 in the initial state under a quiet environment. -/
theorem claim_C9_witness :
    (initialState.flags = ⟨false, false, false, false, false, false, false, false⟩
      ∧ initialState.alarmMatched = false
      ∧ c9WitnessInput.aFired = 0 ∧ c9WitnessInput.alarmFires = false)
    ∧ ((redrawStep initialState c9WitnessInput.dateTime).1 = initialState
      ∧ (redrawStep ((redrawStep initialState c9WitnessInput.dateTime).1)
            c9WitnessInput.dateTime).2
          = (redrawStep initialState c9WitnessInput.dateTime).2
      ∧ (loopIteration initialState c9WitnessInput).1
          = { initialState with pending := false }
      ∧ (redrawStep ((loopIteration initialState c9WitnessInput).1)
            c9WitnessInput.dateTime).2
          = (redrawStep initialState c9WitnessInput.dateTime).2) :=
  ⟨⟨rfl, rfl, rfl, rfl⟩,
   claim_C9 initialState c9WitnessInput rfl rfl rfl rfl rfl rfl rfl rfl rfl rfl rfl⟩

/-- C10: `CURRENT_DISPLAY_STATE` is initialised to 0; the toggle stores 1
when the current value is 0 and 0 for any other value; no other
operation writes it, so every reachable state has mode 0 or 1. -/
theorem claim_C10 (st : SysState) (m : Nat) (h : Reachable st) (hm : m ≠ 0) :
    initialState.mode = 0 ∧ toggleMode 0 = 1 ∧ toggleMode m = 0
    ∧ (st.mode = 0 ∨ st.mode = 1) := by
  refine ⟨rfl, rfl, by simp [toggleMode, hm], ?_⟩
  induction h with
  | init => exact Or.inl rfl
  | loopStep st' inp hr ih =>
    rw [loopIteration_mode]
    cases hacc : acceptedAt st' inp .a with
    | false =>
      simp only [hacc, Bool.false_eq_true, if_false]
      exact ih
    | true =>
      rcases ih with h0 | h0 <;> simp [hacc, toggleMode, h0]
  | mqttStep st' raw hr ih => simpa [mqttStoreStep] using ih

/-- Witness for C10 at the initial state and `m = 5`. -/
theorem claim_C10_witness :
    (Reachable initialState ∧ (5 : Nat) ≠ 0)
    ∧ (initialState.mode = 0 ∧ toggleMode 0 = 1 ∧ toggleMode 5 = 0
        ∧ (initialState.mode = 0 ∨ initialState.mode = 1)) :=
  ⟨⟨Reachable.init, by decide⟩, claim_C10 initialState 5 Reachable.init (by decide)⟩

end ButtonBoard
